import Mathlib

/-!
Verification of the video-ingestion task orchestrator of ViSL-News
(backend/app/modules/collecting/router.py and pipeline.py).

The durable store (table collecting_tasks, models/collecting.py) is modelled
as a list of records, the volatile cache (the module-level dict active_tasks)
as an association list, and the filesystem working directories (TASKS_DIR/tid)
as the list of task ids whose directory exists.  Each router endpoint and each
phase of the background coroutine process_video_task is one atomic operation
on this state; operations return the post state together with the HTTP error
raised, when one is raised (mutations committed before the raise persist,
exactly as in the source, where cleanup_stuck_tasks commits before the
conflict check raises).
-/

namespace ViSL

/-- Task status strings used by the router: pending, processing, completed,
failed, cancelled. -/
inductive Status
  | pending
  | processing
  | completed
  | failed
  | cancelled
deriving DecidableEq, Repr

/-- status in \x7b pending, processing \x7d: the statuses treated as active by
cleanup_stuck_tasks, the submit conflict check and cancel_task. -/
def Status.isActive : Status → Bool
  | .pending => true
  | .processing => true
  | _ => false

/-- A terminal status is one that is not active. -/
def Status.isTerminal (s : Status) : Bool := !s.isActive

/-- One row of the collecting_tasks table (models/collecting.py,
CollectingTask).  Timestamps are seconds; work_dir and zip_path store the
owning task id in place of the full filesystem path. -/
structure DbTask where
  task_id : String
  user_id : Option Nat
  youtube_url : String
  max_videos : Nat
  status : Status
  progress : Nat
  message : String
  error : Option String
  work_dir : Option String
  zip_path : Option String
  created_at : Option Nat
  started_at : Option Nat
  completed_at : Option Nat
deriving DecidableEq, Repr

/-- One value of the module-level dict active_tasks (router.py line 30).
download_url is absent until process_video_task adds it on completion. -/
structure CacheEntry where
  status : Status
  progress : Nat
  message : String
  youtube_url : String
  max_videos : Nat
  created_at : Option Nat
  user_id : Option Nat
  zip_path : Option String
  error : Option String
  cancelled : Bool
  download_url : Option String
deriving DecidableEq, Repr

/-- The mutable state of the collecting module: durable store, volatile
cache, the set of existing working directories, and the background tasks
scheduled via BackgroundTasks.add_task but not yet started. -/
structure SysState where
  db : List DbTask
  cache : List (String × CacheEntry)
  workdirs : List String
  scheduled : List String
deriving DecidableEq, Repr

/-- HTTP errors raised by the router endpoints. -/
inductive ApiError
  | badRequest (detail : String)
  | forbidden (detail : String)
  | notFound (detail : String)
deriving DecidableEq, Repr

/-- db.query(CollectingTask).filter(CollectingTask.task_id == tid).first() -/
def dbFind : List DbTask → String → Option DbTask
  | [], _ => none
  | t :: rest, tid => if t.task_id = tid then some t else dbFind rest tid

/-- Mutating the ORM row with the given task_id and committing.  task_id
carries a unique constraint, so updating every matching row coincides with
updating the single row. -/
def dbUpdate (db : List DbTask) (tid : String) (f : DbTask → DbTask) : List DbTask :=
  db.map fun t => if t.task_id = tid then f t else t

/-- active_tasks.get(tid) -/
def cacheFind : List (String × CacheEntry) → String → Option CacheEntry
  | [], _ => none
  | (k, e) :: rest, tid => if k = tid then some e else cacheFind rest tid

/-- In-place mutation of the cache entry for tid, when present. -/
def cacheUpdate : List (String × CacheEntry) → String → (CacheEntry → CacheEntry) →
    List (String × CacheEntry)
  | [], _, _ => []
  | (k, e) :: rest, tid, f =>
      (if k = tid then (k, f e) else (k, e)) :: cacheUpdate rest tid f

/-- Truthiness of an Optional[int] in python: None and 0 are falsy. -/
def truthy : Option Nat → Bool
  | none => false
  | some n => n != 0

/-- Does the pattern start the character list? -/
def listStartsWith : List Char → List Char → Bool
  | [], _ => true
  | _ :: _, [] => false
  | p :: ps, c :: cs => p == c && listStartsWith ps cs

/-- Does the pattern occur inside the character list? -/
def listHasSub (pat : List Char) : List Char → Bool
  | [] => listStartsWith pat []
  | c :: cs => listStartsWith pat (c :: cs) || listHasSub pat cs

/-- "pat in s", python substring containment. -/
def containsSub (s pat : String) : Bool := listHasSub pat.data s.data

/-- time_since_created > timedelta(minutes=5), with a missing created_at
read as timedelta(hours=1) (router.py line 49); seconds. -/
def pastGrace (now : Nat) (created_at : Option Nat) : Bool :=
  (match created_at with
   | some c => now - c
   | none => 3600) > 300

/-- The condition of cleanup_stuck_tasks on one row: status pending or
processing (the query filter), owner matching the truthy user filter (the
optional query filter), no active_tasks entry, and past the grace window. -/
def isStuck (now : Nat) (user_id : Option Nat) (cache : List (String × CacheEntry))
    (t : DbTask) : Bool :=
  t.status.isActive
    && (if truthy user_id then t.user_id == user_id else true)
    && (cacheFind cache t.task_id).isNone
    && pastGrace now t.created_at

/-- The mutation cleanup_stuck_tasks applies to a stuck row (router.py
lines 51-53). -/
def reclaimStuck (t : DbTask) : DbTask :=
  { t with status := .cancelled,
           message := "Task was cancelled (server restarted)",
           error := some "Task was interrupted due to server restart" }

/-- cleanup_stuck_tasks (router.py lines 36-56): every durable task that is
pending or processing, matches the optional (truthy) user filter, has no
active_tasks entry and is older than the grace window is marked cancelled
with the server-restart message and error. -/
def cleanup_stuck_tasks (now : Nat) (user_id : Option Nat) (st : SysState) : SysState :=
  { st with db := st.db.map fun t =>
      if isStuck now user_id st.cache t then reclaimStuck t else t }

/-- Does the owner have a row in status pending/processing
(the .first() existence check of the submit conflict query)? -/
def hasActive (db : List DbTask) (user_id : Option Nat) : Bool :=
  db.any fun t => t.user_id == user_id && t.status.isActive

/-- Number of active tasks of the given owner in the durable store. -/
def activeCount (db : List DbTask) (uid : Nat) : Nat :=
  (db.filter fun t => t.user_id == some uid && t.status.isActive).length

/-- The fresh row inserted by the submit endpoint (router.py lines 241-252):
status pending, progress 0, message "Task queued"; created_at is the server
default now. -/
def newDbTask (task_id : String) (user_id : Option Nat) (url : String)
    (max_videos : Nat) (now : Nat) : DbTask :=
  { task_id := task_id, user_id := user_id, youtube_url := url,
    max_videos := max_videos, status := .pending, progress := 0,
    message := "Task queued", error := none, work_dir := none,
    zip_path := none, created_at := some now, started_at := none,
    completed_at := none }

/-- The fresh active_tasks entry added by submit (router.py lines 254-266). -/
def newCacheEntry (user_id : Option Nat) (url : String) (max_videos : Nat)
    (now : Nat) : CacheEntry :=
  { status := .pending, progress := 0, message := "Task queued",
    youtube_url := url, max_videos := max_videos, created_at := some now,
    user_id := user_id, zip_path := none, error := none, cancelled := false,
    download_url := none }

/-- process_video, the submit endpoint (router.py lines 201-282).  task_id
stands for the uuid4 drawn at line 238; the durable store enforces
uniqueness of task_id (models/collecting.py line 16), so an insert with an
id already present fails and changes nothing.  Returns the post state and
the HTTPException raised, if any; note that when the conflict check raises,
the changes committed by cleanup_stuck_tasks persist. -/
def process_video (task_id : String) (url : String) (max_videos : Nat)
    (current_user : Option Nat) (now : Nat) (st : SysState) :
    SysState × Option ApiError :=
  if url = "" then (st, some (.badRequest "YouTube URL is required"))
  else if !containsSub url "youtube.com" && !containsSub url "youtu.be" then
    (st, some (.badRequest "Invalid YouTube URL"))
  else
    let user_id := current_user
    let st1 := if truthy user_id then cleanup_stuck_tasks now user_id st else st
    if truthy user_id && hasActive st1.db user_id then
      (st1, some (.badRequest "Bạn đã có task đang chạy. Vui lòng hủy task đó trước khi tạo task mới."))
    else if (dbFind st1.db task_id).isSome then
      (st1, some (.badRequest "duplicate task_id"))
    else
      ({ st1 with
          db := st1.db ++ [newDbTask task_id user_id url max_videos now],
          cache := st1.cache ++ [(task_id, newCacheEntry user_id url max_videos now)],
          scheduled := st1.scheduled ++ [task_id] }, none)

/-- cancel_task (router.py lines 285-326): 404 when the id is unknown to the
durable store; 403 when a logged-in requester is not the owner (an anonymous
requester skips this check); 400 when the status is not pending/processing;
otherwise sets the cancelled flag in the cache entry when present, marks the
durable row cancelled and removes the working directory. -/
def cancel_task (task_id : String) (current_user : Option Nat) (st : SysState) :
    SysState × Option ApiError :=
  match dbFind st.db task_id with
  | none => (st, some (.notFound "Task not found"))
  | some db_task =>
    if (match current_user with
        | some u => db_task.user_id != some u
        | none => false) then
      (st, some (.forbidden "Bạn không có quyền hủy task này"))
    else if !db_task.status.isActive then
      (st, some (.badRequest "Task không thể hủy (đã hoàn thành hoặc đã thất bại)"))
    else
      ({ st with
          cache := cacheUpdate st.cache task_id fun e =>
            { e with cancelled := true, status := .cancelled, message := "Đang hủy..." },
          db := dbUpdate st.db task_id fun t =>
            { t with status := .cancelled, message := "Task cancelled by user",
                     error := some "Cancelled by user" },
          workdirs := st.workdirs.filter fun d => d != task_id }, none)

/-- delete_task (router.py lines 391-415): the endpoint declares no user
dependency, so the requester argument records that any caller, logged in or
not, reaches the same result.  404 when the id is absent from the durable
store; otherwise the working directory, the durable row and the cache entry
are removed. -/
def delete_task (_requester : Option Nat) (task_id : String) (st : SysState) :
    SysState × Option ApiError :=
  match dbFind st.db task_id with
  | none => (st, some (.notFound "Task not found"))
  | some _ =>
    ({ st with
        workdirs := st.workdirs.filter fun d => d != task_id,
        db := st.db.filter fun t => t.task_id != task_id,
        cache := st.cache.filter fun p => p.1 != task_id }, none)

/-- The head of process_video_task (router.py lines 93-115): writes
status processing, the initializing message, started_at and work_dir to the
durable row when present, mirrors status and message into the cache entry
when present, and creates the working directory (VideoPipeline mkdir,
pipeline.py lines 277-289).  The scheduled background task starts. -/
def bg_start (task_id : String) (now : Nat) (st : SysState) : SysState :=
  { st with
      db := dbUpdate st.db task_id fun t =>
        { t with status := .processing, message := "Initializing pipeline...",
                 started_at := some now, work_dir := some task_id },
      cache := cacheUpdate st.cache task_id fun e =>
        { e with status := .processing, message := "Initializing pipeline..." },
      workdirs := if st.workdirs.contains task_id then st.workdirs
                  else st.workdirs ++ [task_id],
      scheduled := st.scheduled.filter fun d => d != task_id }

/-- One progress callback delivery: progress_callback (router.py lines
109-113) followed by update_task_progress (lines 59-81).  Both raise when
the cache entry exists and carries cancelled=True; the returned Bool is
true when the callback raised (and then nothing is written).  Otherwise the
cache entry, when present, takes the new percent and message unclamped, and
the durable row is written when percent is a multiple of 5 or at least
100. -/
def update_task_progress (task_id : String) (percent : Nat) (message : String)
    (st : SysState) : SysState × Bool :=
  match cacheFind st.cache task_id with
  | some e =>
    if e.cancelled then (st, true)
    else
      (writeProgress st, false)
  | none => (writeProgress st, false)
where
  writeProgress (st : SysState) : SysState :=
    { st with
        cache := cacheUpdate st.cache task_id fun e =>
          { e with progress := percent, message := message },
        db := if percent % 5 = 0 || percent ≥ 100 then
                dbUpdate st.db task_id fun t =>
                  { t with progress := percent, message := message }
              else st.db }

/-- The tail of process_video_task on normal pipeline return (router.py
lines 120-150): when the durable row still exists, a produced zip records
completed with progress 100, the zip path, completed_at and a download_url
in the cache; a missing zip records failed with the generic error.  When the
row was deleted mid-run nothing at all is written. -/
def bg_finish (task_id : String) (zip_path : Option String) (now : Nat)
    (st : SysState) : SysState :=
  match dbFind st.db task_id with
  | none => st
  | some _ =>
    match zip_path with
    | some z =>
      { st with
          db := dbUpdate st.db task_id fun t =>
            { t with status := .completed, progress := 100,
                     message := "Processing complete!", zip_path := some z,
                     completed_at := some now },
          cache := cacheUpdate st.cache task_id fun e =>
            { e with status := .completed, progress := 100,
                     message := "Processing complete!", zip_path := some z,
                     download_url := some ("/api/collecting/download/" ++ task_id) } }
    | none =>
      { st with
          db := dbUpdate st.db task_id fun t =>
            { t with status := .failed,
                     error := some "Pipeline failed to generate output" },
          cache := cacheUpdate st.cache task_id fun e =>
            { e with status := .failed,
                     error := some "Pipeline failed to generate output" } }

/-- The except asyncio.CancelledError handler of process_video_task
(router.py lines 152-167): status cancelled and the cancellation message in
row and cache entry; the error column is left as it was. -/
def bg_except_cancelled (task_id : String) (st : SysState) : SysState :=
  { st with
      db := dbUpdate st.db task_id fun t =>
        { t with status := .cancelled, message := "Task cancelled by user" },
      cache := cacheUpdate st.cache task_id fun e =>
        { e with status := .cancelled, message := "Task cancelled by user" } }

/-- The generic except handler of process_video_task (router.py lines
169-193): a message containing "cancelled" records cancelled, anything else
records failed; the chosen message lands in the error column of the row and
of the cache entry. -/
def bg_except_error (task_id : String) (error_msg : String) (st : SysState) :
    SysState :=
  let isCancel := listHasSub "cancelled".data (error_msg.data.map Char.toLower)
  let status : Status := if isCancel then .cancelled else .failed
  let message := if isCancel then "Task cancelled by user" else error_msg
  { st with
      db := dbUpdate st.db task_id fun t =>
        { t with status := status, error := some message },
      cache := cacheUpdate st.cache task_id fun e =>
        { e with status := status, error := some message } }

/-- Every state-mutating step of the collecting module: the four mutating
endpoints (submit, cancel, delete, and the stuck-task sweep run by submit
and by the my-tasks endpoint) and the phases of the background coroutine.
The status, download and list endpoints only read. -/
inductive Op
  | submit (task_id url : String) (max_videos : Nat) (user : Option Nat) (now : Nat)
  | cancel (task_id : String) (user : Option Nat)
  | deleteOp (task_id : String) (user : Option Nat)
  | cleanup (now : Nat) (user_filter : Option Nat)
  | bgStart (task_id : String) (now : Nat)
  | bgProgress (task_id : String) (percent : Nat) (message : String)
  | bgFinish (task_id : String) (zip_path : Option String) (now : Nat)
  | bgExceptCancelled (task_id : String)
  | bgExceptError (task_id : String) (error_msg : String)
deriving DecidableEq, Repr

/-- The state reached after one step (errors raised by an endpoint leave the
returned state as the endpoint left it). -/
def applyOp (op : Op) (st : SysState) : SysState :=
  match op with
  | .submit tid url mv user now => (process_video tid url mv user now st).1
  | .cancel tid user => (cancel_task tid user st).1
  | .deleteOp tid user => (delete_task user tid st).1
  | .cleanup now filt => cleanup_stuck_tasks now filt st
  | .bgStart tid now => bg_start tid now st
  | .bgProgress tid p m => (update_task_progress tid p m st).1
  | .bgFinish tid z now => bg_finish tid z now st
  | .bgExceptCancelled tid => bg_except_cancelled tid st
  | .bgExceptError tid m => bg_except_error tid m st

/-- The operations of the request surface other than delete: the ones the
terminal-finality claim quantifies over.  The bg operations are the phases
of a task's own background execution, not externally invoked operations. -/
def Op.isExternalApi : Op → Bool
  | .submit _ _ _ _ _ => true
  | .cancel _ _ => true
  | .cleanup _ _ => true
  | _ => false

/-!
The pipeline (pipeline.py, VideoPipeline).  Each stage invokes external
tools whose outcomes the pipeline only observes, so a run is modelled over
an outcome record: what each downloaded entry did in step 1, whether each
surviving video cropped and transcribed, which transcript segments were
valid, how face clustering ended, and whether the zip was written.  From the
outcomes the model reproduces the control flow of VideoPipeline.run and the
exact sequence of update_progress calls and external-tool invocations.
-/

/-- Per-item configuration of the per-video stages 2-4: did ffmpeg crop
succeed (step2), did WhisperX succeed (step3), and the validity of each
transcript segment (step4: a segment with end_rounded > start ≥ 0 yields a
clip and a metadata row, an invalid one is skipped). -/
structure ItemCfg where
  crop : Bool
  transcribe : Bool
  segs : List Bool
deriving DecidableEq, Repr

/-- Outcome of step1_download_video for one playlist entry: the download
raised, no raw file was found, ffmpeg standardization failed, the converted
file was below the size floor, the signer check failed on a test frame, or
the video was accepted (carrying its later per-item outcomes). -/
inductive FetchOutcome
  | dlError
  | noRaw
  | convertFail
  | tooSmall
  | noSigner
  | ok (item : ItemCfg)
deriving DecidableEq, Repr

/-- Outcome of step5_face_clustering: success, or the exception raised when
InsightFace is unavailable, when no embeddings were extracted, or when
DBSCAN returned no assignments. -/
inductive ClusterOutcome
  | clusterOk
  | noModel
  | noEmbeddings
  | noAssignments
deriving DecidableEq, Repr

/-- Outcomes of one whole run: whether extract_info returned a playlist, the
per-entry fetch outcomes, the clustering outcome and the zip outcome. -/
structure RunCfg where
  playlist : Bool
  fetch : List FetchOutcome
  cluster : ClusterOutcome
  zipOk : Bool
deriving DecidableEq, Repr

/-- The videos returned by step 1: the entries whose download, conversion,
size check and signer check all passed. -/
def survivors (cfg : RunCfg) : List ItemCfg :=
  cfg.fetch.filterMap fun o =>
    match o with
    | .ok item => some item
    | _ => none

/-- Metadata rows contributed by one surviving video: one per valid segment
when crop and transcription succeeded, none otherwise (a failed crop or
transcription drops the item; step4 appends a row for every valid segment,
whatever the ffmpeg cut returned). -/
def itemClips (i : ItemCfg) : Nat :=
  if i.crop && i.transcribe then i.segs.count true else 0

/-- len(all_metadata) at the end of the per-video loop of run. -/
def totalClips (cfg : RunCfg) : Nat :=
  ((survivors cfg).map itemClips).sum

/-- VideoPipeline.run (pipeline.py lines 737-817) as a function of the
outcomes: None when no video was downloaded, when no clips were generated,
when the required clustering stage failed, or when the zip write failed;
the zip path otherwise. -/
def pipelineRun (cfg : RunCfg) : Option String :=
  if (survivors cfg).isEmpty then none
  else if totalClips cfg = 0 then none
  else if cfg.cluster ≠ .clusterOk then none
  else if cfg.zipOk then some "result.zip" else none

/-- One event of a pipeline run: a progress emission (an update_progress
call, reaching the progress callback) or an external-tool invocation, which
never consults the cancellation flag. -/
inductive PEvent
  | prog (percent : Nat) (message : String)
  | work (tool : String)
deriving DecidableEq, Repr

/-- Events of one entry of the step-1 download loop (pipeline.py lines
346-424); idx is the enumerate index. -/
def entryTrace (idx : Nat) (o : FetchOutcome) : List PEvent :=
  [.prog (10 + idx) "Downloading video", .work "yt_dlp download"] ++
  match o with
  | .dlError => []
  | .noRaw => []
  | .convertFail => [.prog (11 + idx) "Converting video to MP4", .work "ffmpeg standardize"]
  | .tooSmall => [.prog (11 + idx) "Converting video to MP4", .work "ffmpeg standardize"]
  | .noSigner =>
      [.prog (11 + idx) "Converting video to MP4", .work "ffmpeg standardize",
       .prog (12 + idx) "Checking for signer", .work "signer check"]
  | .ok _ =>
      [.prog (11 + idx) "Converting video to MP4", .work "ffmpeg standardize",
       .prog (12 + idx) "Checking for signer", .work "signer check"]

/-- Events of step1_download_video (pipeline.py lines 297-431). -/
def step1Trace (cfg : RunCfg) : List PEvent :=
  [.prog 5 "Downloading video(s) from YouTube", .work "yt_dlp extract_info"] ++
  (if cfg.playlist then [.prog 8 "Found playlist"] else []) ++
  (cfg.fetch.enum.flatMap fun p => entryTrace p.1 p.2) ++
  [.prog 15 "Downloaded video(s)"]

/-- Events of steps 2-4 for the idx-th of n surviving videos (run lines
761-787 and the called step bodies).  base reproduces
15 + int((idx / total_videos) * 55), exact on the inputs used here. -/
def itemTrace (n idx : Nat) (i : ItemCfg) : List PEvent :=
  let base := 15 + idx * 55 / n
  [.prog base "Processing video", .prog (base + 5) "Cropping signer",
   .prog 20 "Cropping signer region", .work "ffmpeg crop"] ++
  if !i.crop then [] else
  [.prog 35 "Cropped signer", .prog (base + 15) "Transcribing",
   .prog 40 "Loading transcription model", .work "whisperx load_model"] ++
  if !i.transcribe then [] else
  [.prog 50 "Transcribing audio", .work "whisperx transcribe",
   .prog 55 "Aligning timestamps", .work "whisperx align",
   .prog 65 "Transcribed", .prog (base + 25) "Splitting clips",
   .prog 70 "Splitting into sentence clips"] ++
  (let m := i.segs.length
   i.segs.enum.flatMap fun p =>
     if p.2 then [.work "ffmpeg cut", .prog (70 + p.1 * 15 / m) "Cutting clip"]
     else []) ++
  (if i.segs.isEmpty then [] else [.prog 85 "Saving metadata"])

/-- Events of step5_face_clustering (pipeline.py lines 611-698) up to its
return or to the exception it raises. -/
def clusterTrace : ClusterOutcome → List PEvent
  | .noModel => [.prog 80 "Starting face clustering", .work "insightface import"]
  | .noEmbeddings =>
      [.prog 80 "Starting face clustering", .work "insightface import",
       .prog 82 "Extracting face embeddings", .work "extract embeddings"]
  | .noAssignments =>
      [.prog 80 "Starting face clustering", .work "insightface import",
       .prog 82 "Extracting face embeddings", .work "extract embeddings",
       .prog 88 "Clustering face embeddings", .work "dbscan"]
  | .clusterOk =>
      [.prog 80 "Starting face clustering", .work "insightface import",
       .prog 82 "Extracting face embeddings", .work "extract embeddings",
       .prog 88 "Clustering face embeddings", .work "dbscan",
       .prog 92 "Updating metadata with signer IDs", .work "update metadata",
       .prog 95 "Face clustering complete"]

/-- Events of step6_create_zip followed by the final update of run: the
closing 100 percent update is emitted whether or not the zip was written. -/
def zipTrace (zipOk : Bool) : List PEvent :=
  [.prog 96 "Creating ZIP archive", .work "zipfile write"] ++
  (if zipOk then [.prog 99 "ZIP created"] else []) ++
  [.prog 100 "Pipeline complete"]

/-- The full event sequence of VideoPipeline.run on the given outcomes. -/
def runTrace (cfg : RunCfg) : List PEvent :=
  .prog 0 "Starting pipeline" :: step1Trace cfg ++
  (if (survivors cfg).isEmpty then [] else
    ((survivors cfg).enum.flatMap fun p => itemTrace (survivors cfg).length p.1 p.2) ++
    (if totalClips cfg = 0 then [] else
      [.prog 75 "Saving combined metadata"] ++ clusterTrace cfg.cluster ++
      (if cfg.cluster = .clusterOk then zipTrace cfg.zipOk
       else [.prog 100 "Pipeline failed: Face clustering error"])))

/-- The percents of the progress emissions of a run, in emission order: the
sequence delivered to the progress callback and stored by
update_task_progress. -/
def progressList (cfg : RunCfg) : List Nat :=
  (runTrace cfg).filterMap fun e =>
    match e with
    | .prog p _ => some p
    | .work _ => none

/-- Cooperative cancellation as implemented (router.py lines 109-113 and
61-63, pipeline.py lines 291-295): the cancelled flag set by cancel_task is
read exactly inside the progress callback, so a run whose flag becomes set
from absolute event index flagAt onward executes every event before the
first progress emission at index at least flagAt, and stops there; external
work events never consult the flag.  Returns the executed prefix; the
accumulator i is the absolute index of the head event. -/
def execCancel (flagAt : Nat) : Nat → List PEvent → List PEvent
  | _, [] => []
  | i, .work w :: rest => .work w :: execCancel flagAt (i + 1) rest
  | i, .prog p m :: rest =>
      if flagAt ≤ i then []
      else .prog p m :: execCancel flagAt (i + 1) rest

/-! Concrete states and runs used by the counterexamples and witnesses. -/

/-- A well-formed submission URL. -/
def exUrl : String := "https://www.youtube.com/watch?v=abc"

/-- The empty module state: fresh process, empty store. -/
def st0 : SysState := ⟨[], [], [], []⟩

/-- User 1 submits task A at time 100. -/
def c1a : SysState := (process_video "A" exUrl 1 (some 1) 100 st0).1

/-- User 1 cancels A before its background coroutine has started. -/
def c1b : SysState := (cancel_task "A" (some 1) c1a).1

/-- User 1 submits task B: A is cancelled, so no conflict is raised. -/
def c1c : SysState := (process_video "B" exUrl 1 (some 1) 100 c1b).1

/-- The scheduled background coroutine of A now starts and writes
status processing over the cancelled row. -/
def c1d : SysState := bg_start "A" 101 c1c

/-- A pending task of user 1 created at time 0, absent from the cache: a
stuck task in the sense of cleanup_stuck_tasks. -/
def stuckTask : DbTask := newDbTask "A" (some 1) exUrl 1 0

/-- State holding only the stuck task. -/
def stuckSt : SysState := ⟨[stuckTask], [], [], []⟩

/-- A single-video run in which every stage succeeds: one accepted download
whose crop and transcription succeed with one valid segment. -/
def exCfg : RunCfg := ⟨false, [.ok ⟨true, true, [true]⟩], .clusterOk, true⟩

/-- Task T of user 1 running at 35 percent. -/
def running35 : DbTask :=
  { newDbTask "T" (some 1) exUrl 1 0 with status := .processing, progress := 35 }

/-- Cache entry of T at 35 percent, flag clear. -/
def running35Entry : CacheEntry :=
  { newCacheEntry (some 1) exUrl 1 0 with status := .processing, progress := 35 }

/-- State of a run of T that has reached 35 percent. -/
def running35St : SysState := ⟨[running35], [("T", running35Entry)], ["T"], []⟩

/-- A pending task T owned by user 1, present in all tiers. -/
def pendingT : DbTask := newDbTask "T" (some 1) exUrl 1 0

/-- State holding pendingT with its cache entry and working directory. -/
def pendingTSt : SysState :=
  ⟨[pendingT], [("T", newCacheEntry (some 1) exUrl 1 0)], ["T"], []⟩

/-- State of T after its cancelled flag was set. -/
def flaggedSt : SysState :=
  ⟨[pendingT], [("T", { newCacheEntry (some 1) exUrl 1 0 with cancelled := true })], ["T"], []⟩

/-- A completed task D of user 2. -/
def doneTask : DbTask :=
  { newDbTask "D" (some 2) exUrl 1 0 with status := .completed, progress := 100 }

/-- State holding only the completed task D. -/
def doneSt : SysState := ⟨[doneTask], [], ["D"], []⟩

/-! Lemmas about lookup, update, append and filter on the two store tiers. -/

theorem dbFind_id {db : List DbTask} {tid : String} {t : DbTask}
    (h : dbFind db tid = some t) : t.task_id = tid := by
  induction db with
  | nil => simp [dbFind] at h
  | cons hd tl ih =>
    by_cases hh : hd.task_id = tid
    · simp [dbFind, hh] at h
      subst h
      exact hh
    · simp [dbFind, hh] at h
      exact ih h

theorem dbFind_map {f : DbTask → DbTask} (hf : ∀ t, (f t).task_id = t.task_id)
    (db : List DbTask) (tid : String) :
    dbFind (db.map f) tid = (dbFind db tid).map f := by
  induction db with
  | nil => simp [dbFind]
  | cons hd tl ih =>
    by_cases hh : hd.task_id = tid
    · simp [dbFind, hh, hf]
    · simp [dbFind, hh, hf, ih]

theorem dbFind_append_some {a b : List DbTask} {tid : String} {t : DbTask}
    (h : dbFind a tid = some t) : dbFind (a ++ b) tid = some t := by
  induction a with
  | nil => simp [dbFind] at h
  | cons hd tl ih =>
    by_cases hh : hd.task_id = tid
    · simp [dbFind, hh] at h ⊢
      exact h
    · simp [dbFind, hh] at h ⊢
      exact ih h

theorem dbFind_append_none {a : List DbTask} {tid : String}
    (h : dbFind a tid = none) (b : List DbTask) :
    dbFind (a ++ b) tid = dbFind b tid := by
  induction a with
  | nil => simp
  | cons hd tl ih =>
    by_cases hh : hd.task_id = tid
    · simp [dbFind, hh] at h
    · simp [dbFind, hh] at h ⊢
      exact ih h

theorem dbFind_update_self {f : DbTask → DbTask} (db : List DbTask) (tid : String)
    (hf : ∀ t, (f t).task_id = t.task_id) :
    dbFind (dbUpdate db tid f) tid = (dbFind db tid).map f := by
  unfold dbUpdate
  rw [dbFind_map (fun t => by by_cases h : t.task_id = tid <;> simp [h, hf])]
  cases h : dbFind db tid with
  | none => simp
  | some t => simp [dbFind_id h]

theorem dbFind_update_ne {tid2 tid : String} {f : DbTask → DbTask}
    (hne : tid2 ≠ tid) (db : List DbTask)
    (hf : ∀ t, (f t).task_id = t.task_id) :
    dbFind (dbUpdate db tid f) tid2 = dbFind db tid2 := by
  unfold dbUpdate
  rw [dbFind_map (fun t => by by_cases h : t.task_id = tid <;> simp [h, hf])]
  cases h : dbFind db tid2 with
  | none => simp
  | some t =>
    have ht : t.task_id = tid2 := dbFind_id h
    simp [ht, hne]

theorem dbFind_filter_self (db : List DbTask) (tid : String) :
    dbFind (db.filter fun t => t.task_id != tid) tid = none := by
  induction db with
  | nil => simp [dbFind]
  | cons hd tl ih =>
    by_cases hh : hd.task_id = tid
    · simp [List.filter_cons, bne_iff_ne, hh, ih]
    · simp [List.filter_cons, bne_iff_ne, hh, dbFind, ih]

theorem dbFind_filter_ne {tid2 tid : String} (hne : tid2 ≠ tid) (db : List DbTask) :
    dbFind (db.filter fun t => t.task_id != tid) tid2 = dbFind db tid2 := by
  induction db with
  | nil => simp [dbFind]
  | cons hd tl ih =>
    by_cases hh : hd.task_id = tid
    · have h2 : hd.task_id ≠ tid2 := fun hc => hne ((hc ▸ hh : tid2 = tid))
      simp [List.filter_cons, bne_iff_ne, hh, dbFind, h2, hne, hne.symm, ih]
    · by_cases h2 : hd.task_id = tid2
      · simp [List.filter_cons, bne_iff_ne, hh, dbFind, h2, hne, hne.symm]
      · simp [List.filter_cons, bne_iff_ne, hh, dbFind, h2, hne, hne.symm, ih]

theorem cacheFind_update_self (c : List (String × CacheEntry)) (tid : String)
    (f : CacheEntry → CacheEntry) :
    cacheFind (cacheUpdate c tid f) tid = (cacheFind c tid).map f := by
  induction c with
  | nil => simp [cacheFind, cacheUpdate]
  | cons hd tl ih =>
    obtain ⟨k, e⟩ := hd
    show cacheFind ((if k = tid then (k, f e) else (k, e)) :: cacheUpdate tl tid f) tid =
      (if k = tid then some e else cacheFind tl tid).map f
    by_cases hh : k = tid
    · rw [if_pos hh, if_pos hh]
      simp [cacheFind, hh]
    · rw [if_neg hh, if_neg hh]
      simpa [cacheFind, hh] using ih

theorem cacheFind_update_ne {tid2 tid : String} (hne : tid2 ≠ tid)
    (c : List (String × CacheEntry)) (f : CacheEntry → CacheEntry) :
    cacheFind (cacheUpdate c tid f) tid2 = cacheFind c tid2 := by
  induction c with
  | nil => simp [cacheFind, cacheUpdate]
  | cons hd tl ih =>
    obtain ⟨k, e⟩ := hd
    show cacheFind ((if k = tid then (k, f e) else (k, e)) :: cacheUpdate tl tid f) tid2 =
      (if k = tid2 then some e else cacheFind tl tid2)
    by_cases hh : k = tid
    · have h2 : k ≠ tid2 := fun hc => hne ((hc ▸ hh : tid2 = tid))
      rw [if_pos hh]
      simpa [cacheFind, h2] using ih
    · rw [if_neg hh]
      by_cases h2 : k = tid2
      · simp [cacheFind, h2]
      · simpa [cacheFind, h2] using ih

theorem cacheFind_append_some {a b : List (String × CacheEntry)} {tid : String}
    {e : CacheEntry} (h : cacheFind a tid = some e) :
    cacheFind (a ++ b) tid = some e := by
  induction a with
  | nil => simp [cacheFind] at h
  | cons hd tl ih =>
    by_cases hh : hd.1 = tid
    · cases hd
      simp_all [cacheFind]
    · cases hd
      simp_all [cacheFind]

theorem cacheFind_append_none {a : List (String × CacheEntry)} {tid : String}
    (h : cacheFind a tid = none) (b : List (String × CacheEntry)) :
    cacheFind (a ++ b) tid = cacheFind b tid := by
  induction a with
  | nil => simp
  | cons hd tl ih =>
    by_cases hh : hd.1 = tid
    · cases hd
      simp_all [cacheFind]
    · cases hd
      simp_all [cacheFind]

theorem cacheFind_filter_self (c : List (String × CacheEntry)) (tid : String) :
    cacheFind (c.filter fun p => p.1 != tid) tid = none := by
  induction c with
  | nil => simp [cacheFind]
  | cons hd tl ih =>
    by_cases hh : hd.1 = tid
    · simp [List.filter_cons, bne_iff_ne, hh, ih]
    · simp [List.filter_cons, bne_iff_ne, hh, cacheFind, ih]

theorem cacheFind_filter_ne {tid2 tid : String} (hne : tid2 ≠ tid)
    (c : List (String × CacheEntry)) :
    cacheFind (c.filter fun p => p.1 != tid) tid2 = cacheFind c tid2 := by
  induction c with
  | nil => simp [cacheFind]
  | cons hd tl ih =>
    by_cases hh : hd.1 = tid
    · have h2 : hd.1 ≠ tid2 := fun hc => hne ((hc ▸ hh : tid2 = tid))
      simp [List.filter_cons, bne_iff_ne, hh, cacheFind, h2, hne, hne.symm, ih]
    · by_cases h2 : hd.1 = tid2
      · simp [List.filter_cons, bne_iff_ne, hh, cacheFind, h2, hne, hne.symm]
      · simp [List.filter_cons, bne_iff_ne, hh, cacheFind, h2, hne, hne.symm, ih]

theorem contains_filter_self (l : List String) (x : String) :
    (l.filter fun d => d != x).contains x = false := by
  simp [List.mem_filter]

theorem contains_filter_ne {y x : String} (hne : y ≠ x) (l : List String) :
    (l.filter fun d => d != x).contains y = l.contains y := by
  simp [List.mem_filter, bne_iff_ne, hne]

theorem contains_append_left {l : List String} {d : String}
    (h : l.contains d = true) (l2 : List String) :
    (l ++ l2).contains d = true := by
  simp at h ⊢
  exact Or.inl h

theorem activeCount_append (a b : List DbTask) (uid : Nat) :
    activeCount (a ++ b) uid = activeCount a uid + activeCount b uid := by
  simp [activeCount, List.filter_append]

theorem activeCount_eq_zero {db : List DbTask} {uid : Nat}
    (h : hasActive db (some uid) = false) : activeCount db uid = 0 := by
  unfold hasActive at h
  rw [List.any_eq_false] at h
  unfold activeCount
  rw [List.filter_eq_nil_iff.mpr, List.length_nil]
  intro t ht
  simpa using h t ht

theorem activeCount_new (tid : String) (uid : Nat) (url : String) (mv now : Nat) :
    activeCount [newDbTask tid (some uid) url mv now] uid = 1 := by
  simp [activeCount, newDbTask, Status.isActive]

theorem dbFind_cleanup (now : Nat) (filt : Option Nat) (st : SysState)
    (tid : String) :
    dbFind (cleanup_stuck_tasks now filt st).db tid =
      (dbFind st.db tid).map fun t =>
        if isStuck now filt st.cache t then reclaimStuck t else t := by
  simp only [cleanup_stuck_tasks]
  exact dbFind_map
    (fun t => by by_cases h : isStuck now filt st.cache t <;> simp [h, reclaimStuck])
    st.db tid

theorem cacheFind_append_one_ne {k tid : String} (hne : k ≠ tid)
    (c : List (String × CacheEntry)) (e : CacheEntry) :
    cacheFind (c ++ [(k, e)]) tid = cacheFind c tid := by
  cases h : cacheFind c tid with
  | some e2 => exact cacheFind_append_some h
  | none =>
    rw [cacheFind_append_none h]
    simp [cacheFind, hne]

/-- C8: a run of the reclaimer sweep transitions every durable task that is
pending or processing, matches the (truthy) owner filter, has no volatile
cache entry and is older than the grace window to cancelled, with the
server-restart message and the interrupted-execution error; every other
task, in particular one within the grace window or present in the cache, is
left unchanged, and the sweep touches neither the cache nor the working
directories. -/
theorem cleanup_reclaims_stuck_tasks (now : Nat) (filt : Option Nat)
    (st : SysState) (tid : String) (t : DbTask)
    (ht : dbFind st.db tid = some t) :
    (cleanup_stuck_tasks now filt st).cache = st.cache ∧
    (cleanup_stuck_tasks now filt st).workdirs = st.workdirs ∧
    (cleanup_stuck_tasks now filt st).scheduled = st.scheduled ∧
    (isStuck now filt st.cache t = true →
      dbFind (cleanup_stuck_tasks now filt st).db tid =
        some { t with status := .cancelled,
                      message := "Task was cancelled (server restarted)",
                      error := some "Task was interrupted due to server restart" }) ∧
    (isStuck now filt st.cache t = false →
      dbFind (cleanup_stuck_tasks now filt st).db tid = some t) := by
  refine ⟨rfl, rfl, rfl, ?_, ?_⟩ <;> intro hs <;>
    rw [dbFind_cleanup, ht] <;> simp [hs, reclaimStuck]

/-- C8 witness: the sweep at time 10000 with no owner filter finds the
pending task A of user 1, created at time 0 and absent from the cache, and
marks it cancelled with the server-restart message and error. -/
theorem cleanup_reclaims_stuck_tasks_witness :
    dbFind (cleanup_stuck_tasks 10000 none stuckSt).db "A" =
      some { stuckTask with
              status := .cancelled,
              message := "Task was cancelled (server restarted)",
              error := some "Task was interrupted due to server restart" } :=
  (cleanup_reclaims_stuck_tasks 10000 none stuckSt "A" stuckTask
    (by decide)).2.2.2.1 (by decide)

/-- C9: delete performs no ownership check: its result does not depend on
the requester at all, it succeeds for every task id present in the durable
store, removing the durable row, the cache entry and the working directory
and leaving every other task untouched, and it fails with the 404
Task-not-found error exactly when the id is absent from the durable
store. -/
theorem delete_ignores_ownership (r1 r2 : Option Nat) (tid : String)
    (st : SysState) :
    delete_task r1 tid st = delete_task r2 tid st ∧
    (dbFind st.db tid = none →
      delete_task r1 tid st = (st, some (.notFound "Task not found"))) ∧
    (dbFind st.db tid ≠ none →
      (delete_task r1 tid st).2 = none ∧
      dbFind (delete_task r1 tid st).1.db tid = none ∧
      cacheFind (delete_task r1 tid st).1.cache tid = none ∧
      (delete_task r1 tid st).1.workdirs.contains tid = false ∧
      ∀ tid2, tid2 ≠ tid →
        dbFind (delete_task r1 tid st).1.db tid2 = dbFind st.db tid2 ∧
        cacheFind (delete_task r1 tid st).1.cache tid2 = cacheFind st.cache tid2 ∧
        (delete_task r1 tid st).1.workdirs.contains tid2 =
          st.workdirs.contains tid2) := by
  refine ⟨rfl, ?_, ?_⟩
  · intro h
    simp [delete_task, h]
  · intro h
    cases hf : dbFind st.db tid with
    | none => exact absurd hf h
    | some t =>
      refine ⟨?_, ?_, ?_, ?_, ?_⟩
      · simp [delete_task, hf]
      · simp [delete_task, hf, dbFind_filter_self]
      · simp [delete_task, hf, cacheFind_filter_self]
      · simp [delete_task, hf, contains_filter_self]
      · intro tid2 hne
        refine ⟨?_, ?_, ?_⟩
        · simp [delete_task, hf, dbFind_filter_ne hne]
        · simp [delete_task, hf, cacheFind_filter_ne hne]
        · simp only [delete_task, hf]
          exact contains_filter_ne hne st.workdirs

/-- C9 witness: with task T of user 1 present in every tier, an anonymous
delete succeeds and removes the row, the cache entry and the working
directory. -/
theorem delete_ignores_ownership_witness :
    (delete_task none "T" pendingTSt).2 = none ∧
    dbFind (delete_task none "T" pendingTSt).1.db "T" = none ∧
    cacheFind (delete_task none "T" pendingTSt).1.cache "T" = none ∧
    (delete_task none "T" pendingTSt).1.workdirs.contains "T" = false := by
  have h := (delete_ignores_ownership none (some 7) "T" pendingTSt).2.2 (by decide)
  exact ⟨h.1, h.2.1, h.2.2.1, h.2.2.2.1⟩

/-- C4 counterexample: task T is owned by user 1, yet a cancel request with
no requester identity is not rejected with the 403 error: it succeeds and
marks the task cancelled, because the ownership check runs only when a
logged-in user is present (router.py line 297). -/
theorem cancel_anonymous_bypasses_ownership :
    pendingT.user_id = some 1 ∧
    (cancel_task "T" none pendingTSt).2 = none ∧
    (dbFind (cancel_task "T" none pendingTSt).1.db "T").map (fun t => t.status) =
      some .cancelled := by
  refine ⟨by decide, by decide, by decide⟩

/-- C4 amended: cancel fails with the 404 error when the id is absent from
the durable store; with the 403 error exactly when the requester is
authenticated and does not own the task (an anonymous requester bypasses
the ownership check, and no requester is privileged); with the 400 error
when the ownership check passes and the status is terminal; and otherwise
it marks the durable row cancelled and sets the cancelled flag on the cache
entry when one exists. -/
theorem cancel_error_characterization (tid : String) (user : Option Nat)
    (st : SysState) :
    (dbFind st.db tid = none →
      cancel_task tid user st = (st, some (.notFound "Task not found"))) ∧
    (∀ t, dbFind st.db tid = some t →
      ((∃ u, user = some u ∧ t.user_id ≠ some u) →
        cancel_task tid user st =
          (st, some (.forbidden "Bạn không có quyền hủy task này"))) ∧
      ((user = none ∨ t.user_id = user) → t.status.isTerminal = true →
        cancel_task tid user st =
          (st, some (.badRequest "Task không thể hủy (đã hoàn thành hoặc đã thất bại)"))) ∧
      ((user = none ∨ t.user_id = user) → t.status.isActive = true →
        (cancel_task tid user st).2 = none ∧
        dbFind (cancel_task tid user st).1.db tid =
          some { t with status := .cancelled, message := "Task cancelled by user",
                        error := some "Cancelled by user" } ∧
        cacheFind (cancel_task tid user st).1.cache tid =
          (cacheFind st.cache tid).map fun e =>
            { e with cancelled := true, status := .cancelled,
                     message := "Đang hủy..." })) := by
  constructor
  · intro h
    simp [cancel_task, h]
  · intro t ht
    refine ⟨?_, ?_, ?_⟩
    · rintro ⟨u, hu, hneq⟩
      subst hu
      simp [cancel_task, ht, bne_iff_ne, hneq]
    · intro hown hterm
      have hact : t.status.isActive = false := by
        simpa [Status.isTerminal] using hterm
      rcases hown with hnone | howner
      · subst hnone
        simp [cancel_task, ht, hact]
      · rcases user with _ | u
        · simp [cancel_task, ht, hact]
        · simp [cancel_task, ht, hact, howner]
    · intro hown hact
      have hsucc : cancel_task tid user st =
          ({ st with
              cache := cacheUpdate st.cache tid fun e =>
                { e with cancelled := true, status := .cancelled,
                         message := "Đang hủy..." },
              db := dbUpdate st.db tid fun t =>
                { t with status := .cancelled, message := "Task cancelled by user",
                         error := some "Cancelled by user" },
              workdirs := st.workdirs.filter fun d => d != tid }, none) := by
        rcases user with _ | u
        · simp [cancel_task, ht, hact]
        · have howner : t.user_id = some u := by
            rcases hown with h | h
            · exact absurd h (by simp)
            · exact h
          simp [cancel_task, ht, hact, howner]
      rw [hsucc]
      refine ⟨rfl, ?_, ?_⟩
      · show dbFind (dbUpdate st.db tid _) tid = _
        rw [dbFind_update_self st.db tid (by intro t; rfl), ht]
        rfl
      · show cacheFind (cacheUpdate st.cache tid _) tid = _
        rw [cacheFind_update_self]

/-- C4 witness: the owner of the pending task T cancels it: no error, the
durable row turns cancelled and the cache entry takes the cancelled flag. -/
theorem cancel_error_characterization_witness :
    (cancel_task "T" (some 1) pendingTSt).2 = none ∧
    dbFind (cancel_task "T" (some 1) pendingTSt).1.db "T" =
      some { pendingT with status := .cancelled, message := "Task cancelled by user",
                           error := some "Cancelled by user" } := by
  have h := ((cancel_error_characterization "T" (some 1) pendingTSt).2
      pendingT (by decide)).2.2 (by decide) (by decide)
  exact ⟨h.1, h.2.1⟩

theorem workdirs_submit (tid url : String) (mv : Nat) (u : Option Nat)
    (now : Nat) (st : SysState) :
    (process_video tid url mv u now st).1.workdirs = st.workdirs := by
  unfold process_video
  dsimp only
  repeat' split
  all_goals rfl

theorem workdirs_cancel (tid : String) (u : Option Nat) (st : SysState) :
    (cancel_task tid u st).1.workdirs = st.workdirs ∨
    (cancel_task tid u st).1.workdirs = st.workdirs.filter fun x => x != tid := by
  unfold cancel_task
  rcases h : dbFind st.db tid with _ | t
  · left; rfl
  · dsimp only
    split
    · left; rfl
    · split
      · left; rfl
      · right; rfl

theorem workdirs_delete (r : Option Nat) (tid : String) (st : SysState) :
    (delete_task r tid st).1.workdirs = st.workdirs ∨
    (delete_task r tid st).1.workdirs = st.workdirs.filter fun x => x != tid := by
  unfold delete_task
  rcases h : dbFind st.db tid with _ | t
  · left; rfl
  · right; rfl

theorem workdirs_progress (tid : String) (p : Nat) (m : String) (st : SysState) :
    (update_task_progress tid p m st).1.workdirs = st.workdirs := by
  unfold update_task_progress update_task_progress.writeProgress
  repeat' split
  all_goals rfl

theorem workdirs_finish (tid : String) (z : Option String) (now : Nat)
    (st : SysState) :
    (bg_finish tid z now st).workdirs = st.workdirs := by
  unfold bg_finish
  repeat' split
  all_goals rfl

/-- C5 counterexample: the working directory of the pending task T exists;
a successful cancel by its owner deletes it (router.py lines 315-322),
although the claim allows removal only through delete.  A failed run, by
contrast, does leave the directory in place. -/
theorem cancel_removes_workdir :
    pendingTSt.workdirs.contains "T" = true ∧
    (cancel_task "T" (some 1) pendingTSt).2 = none ∧
    (cancel_task "T" (some 1) pendingTSt).1.workdirs.contains "T" = false ∧
    (bg_finish "T" none 50 pendingTSt).workdirs.contains "T" = true := by
  refine ⟨by decide, by decide, by decide, by decide⟩

/-- C5 amended: a task's working directory is removed only by the delete
endpoint or by a successful cancel of that same task; no other operation --
in particular neither a failed pipeline return nor an exception handler of
the background coroutine -- removes any working directory, so failed runs
remain inspectable on disk. -/
theorem workdir_removed_only_by_cancel_or_delete (op : Op) (st : SysState)
    (d : String) (hmem : st.workdirs.contains d = true)
    (hrem : (applyOp op st).workdirs.contains d = false) :
    (∃ u, op = .cancel d u) ∨ (∃ u, op = .deleteOp d u) := by
  cases op with
  | submit tid url mv user now =>
    simp only [applyOp, workdirs_submit] at hrem
    simp at hmem hrem
    exact absurd hmem hrem
  | cancel tid user =>
    rcases workdirs_cancel tid user st with h | h
    · simp only [applyOp, h] at hrem
      simp at hmem hrem
      exact absurd hmem hrem
    · by_cases hd : d = tid
      · subst hd
        exact Or.inl ⟨user, rfl⟩
      · simp only [applyOp, h, contains_filter_ne hd] at hrem
        simp at hmem hrem
        exact absurd hmem hrem
  | deleteOp tid user =>
    rcases workdirs_delete user tid st with h | h
    · simp only [applyOp, h] at hrem
      simp at hmem hrem
      exact absurd hmem hrem
    · by_cases hd : d = tid
      · subst hd
        exact Or.inr ⟨user, rfl⟩
      · simp only [applyOp, h, contains_filter_ne hd] at hrem
        simp at hmem hrem
        exact absurd hmem hrem
  | cleanup now filt =>
    simp only [applyOp, cleanup_stuck_tasks] at hrem
    simp at hmem hrem
    exact absurd hmem hrem
  | bgStart tid now =>
    by_cases hc : st.workdirs.contains tid
    · simp only [applyOp, bg_start, hc, if_pos] at hrem
      simp at hmem hrem
      exact absurd hmem hrem
    · rw [applyOp] at hrem
      unfold bg_start at hrem
      rw [if_neg hc] at hrem
      rw [contains_append_left hmem [tid]] at hrem
      exact absurd hrem (by simp)
  | bgProgress tid p m =>
    simp only [applyOp, workdirs_progress] at hrem
    simp at hmem hrem
    exact absurd hmem hrem
  | bgFinish tid z now =>
    simp only [applyOp, workdirs_finish] at hrem
    simp at hmem hrem
    exact absurd hmem hrem
  | bgExceptCancelled tid =>
    simp only [applyOp, bg_except_cancelled] at hrem
    simp at hmem hrem
    exact absurd hmem hrem
  | bgExceptError tid m =>
    simp only [applyOp, bg_except_error] at hrem
    simp at hmem hrem
    exact absurd hmem hrem

/-- C5 witness: the cancel of task T at the concrete state removes its
directory, and the theorem attributes the removal to that cancel. -/
theorem workdir_removed_only_by_cancel_or_delete_witness :
    (∃ u, Op.cancel "T" (some 1) = Op.cancel "T" u) ∨
    (∃ u, Op.cancel "T" (some 1) = Op.deleteOp "T" u) :=
  workdir_removed_only_by_cancel_or_delete (.cancel "T" (some 1)) pendingTSt "T"
    (by decide) (by decide)

theorem process_video_eq (tid0 url : String) (mv : Nat) (user : Option Nat)
    (now : Nat) (st : SysState) (hu : ¬url = "")
    (hv : ¬(!containsSub url "youtube.com" && !containsSub url "youtu.be") = true) :
    process_video tid0 url mv user now st =
      (let st1 := if truthy user = true then cleanup_stuck_tasks now user st else st
       if (truthy user && hasActive st1.db user) = true then
         (st1, some (.badRequest "Bạn đã có task đang chạy. Vui lòng hủy task đó trước khi tạo task mới."))
       else if (dbFind st1.db tid0).isSome = true then
         (st1, some (.badRequest "duplicate task_id"))
       else
         ({ st1 with
             db := st1.db ++ [newDbTask tid0 user url mv now],
             cache := st1.cache ++ [(tid0, newCacheEntry user url mv now)],
             scheduled := st1.scheduled ++ [tid0] }, none)) := by
  simp only [process_video, if_neg hu, if_neg hv]

/-- C2 counterexample: task A is cancelled -- a terminal status -- while its
background coroutine is still scheduled; when that coroutine starts it
writes status processing over the terminal row (router.py lines 96-103), so
a step of the system does move a task out of a terminal status. -/
theorem terminal_overwritten_by_bg_start :
    (dbFind c1b.db "A").map (fun t => t.status) = some .cancelled ∧
    c1b.scheduled.contains "A" = true ∧
    (dbFind (bg_start "A" 101 c1b).db "A").map (fun t => t.status) =
      some .processing := by
  refine ⟨by decide, by decide, by decide⟩

/-- C2 amended: once a task is terminal, no externally invoked operation
other than delete -- submit (with its embedded sweep), cancel, or a
stuck-task sweep -- mutates its durable row, its cache entry or its working
directory; only the phases of the task's own background execution can still
overwrite a terminal status (see the counterexample). -/
theorem terminal_finality_api_ops (op : Op) (st : SysState) (tid : String)
    (t : DbTask) (hop : op.isExternalApi = true)
    (ht : dbFind st.db tid = some t)
    (hterm : t.status.isTerminal = true) :
    dbFind (applyOp op st).db tid = some t ∧
    cacheFind (applyOp op st).cache tid = cacheFind st.cache tid ∧
    (applyOp op st).workdirs.contains tid = st.workdirs.contains tid := by
  have hact : t.status.isActive = false := by
    simpa [Status.isTerminal] using hterm
  have hstuck : ∀ now filt cache, isStuck now filt cache t = false := by
    intro now filt cache
    simp [isStuck, hact]
  cases op with
  | cleanup now filt =>
    refine ⟨?_, rfl, rfl⟩
    show dbFind (cleanup_stuck_tasks now filt st).db tid = some t
    rw [dbFind_cleanup, ht]
    simp [hstuck]
  | submit tid0 url mv user now =>
    show dbFind (process_video tid0 url mv user now st).1.db tid = some t ∧
      cacheFind (process_video tid0 url mv user now st).1.cache tid =
        cacheFind st.cache tid ∧
      (process_video tid0 url mv user now st).1.workdirs.contains tid =
        st.workdirs.contains tid
    by_cases hu : url = ""
    · simp only [process_video, if_pos hu]
      exact ⟨ht, trivial, trivial⟩
    by_cases hv : (!containsSub url "youtube.com" && !containsSub url "youtu.be") = true
    · simp only [process_video, if_neg hu, if_pos hv]
      exact ⟨ht, trivial, trivial⟩
    have hdbt : dbFind (if truthy user = true then cleanup_stuck_tasks now user st
        else st).db tid = some t := by
      split
      · rw [dbFind_cleanup, ht]
        simp [hstuck]
      · exact ht
    have hcc : (if truthy user = true then cleanup_stuck_tasks now user st
        else st).cache = st.cache := by
      split <;> rfl
    have hww : (if truthy user = true then cleanup_stuck_tasks now user st
        else st).workdirs = st.workdirs := by
      split <;> rfl
    rw [process_video_eq tid0 url mv user now st hu hv]
    simp only []
    generalize hG : (if truthy user = true then cleanup_stuck_tasks now user st
        else st) = st1 at hdbt hcc hww ⊢
    by_cases hA : (truthy user && hasActive st1.db user) = true
    · rw [if_pos hA]
      exact ⟨hdbt, by rw [hcc], by rw [hww]⟩
    rw [if_neg hA]
    by_cases hdup : (dbFind st1.db tid0).isSome = true
    · rw [if_pos hdup]
      exact ⟨hdbt, by rw [hcc], by rw [hww]⟩
    rw [if_neg hdup]
    have h0 : dbFind st1.db tid0 = none := by
      cases hx : dbFind st1.db tid0 with
      | none => rfl
      | some t2 => exact absurd (by simp [hx]) hdup
    have hne : tid0 ≠ tid := by
      intro hEq
      rw [hEq] at h0
      simp [h0] at hdbt
    refine ⟨dbFind_append_some hdbt, ?_, ?_⟩
    · show cacheFind (st1.cache ++ [(tid0, newCacheEntry user url mv now)]) tid =
        cacheFind st.cache tid
      rw [cacheFind_append_one_ne hne, hcc]
    · show st1.workdirs.contains tid = st.workdirs.contains tid
      rw [hww]
  | cancel tid0 user =>
    show dbFind (cancel_task tid0 user st).1.db tid = some t ∧
      cacheFind (cancel_task tid0 user st).1.cache tid = cacheFind st.cache tid ∧
      (cancel_task tid0 user st).1.workdirs.contains tid = st.workdirs.contains tid
    unfold cancel_task
    rcases hf : dbFind st.db tid0 with _ | t0
    · exact ⟨ht, rfl, rfl⟩
    · dsimp only
      split
      · exact ⟨ht, rfl, rfl⟩
      · split
        · exact ⟨ht, rfl, rfl⟩
        · next hguard =>
          have hne : tid ≠ tid0 := by
            intro hEq
            rw [hEq] at ht
            rw [ht] at hf
            have heq : t = t0 := Option.some.inj hf
            rw [← heq] at hguard
            simp [hact] at hguard
          refine ⟨?_, ?_, ?_⟩
          · rw [dbFind_update_ne hne st.db (by intro x; rfl)]
            exact ht
          · exact cacheFind_update_ne hne st.cache _
          · exact contains_filter_ne hne st.workdirs
  | deleteOp tid0 user => simp [Op.isExternalApi] at hop
  | bgStart tid0 now => simp [Op.isExternalApi] at hop
  | bgProgress tid0 p m => simp [Op.isExternalApi] at hop
  | bgFinish tid0 z now => simp [Op.isExternalApi] at hop
  | bgExceptCancelled tid0 => simp [Op.isExternalApi] at hop
  | bgExceptError tid0 m => simp [Op.isExternalApi] at hop

/-- C1 counterexample.  Part one: after submit A by user 1, cancel A before
its background start, and submit B, the delayed background start of A puts
owner 1 at two tasks in status pending/processing at once, falsifying the
single-active invariant.  Part two: with a stuck pending task already in
the store (pending, no cache entry, older than the grace window), a new
submit by the same owner succeeds instead of failing with the conflict
error, because the sweep reclaims the stuck task before the conflict
check. -/
theorem submit_conflict_counterexample :
    ((process_video "A" exUrl 1 (some 1) 100 st0).2 = none ∧
     (cancel_task "A" (some 1) c1a).2 = none ∧
     (process_video "B" exUrl 1 (some 1) 100 c1b).2 = none ∧
     c1c.scheduled.contains "A" = true ∧
     activeCount c1d.db 1 = 2) ∧
    (hasActive stuckSt.db (some 1) = true ∧
     (process_video "B" exUrl 1 (some 1) 10000 stuckSt).2 = none) := by
  refine ⟨⟨by decide, by decide, by decide, by decide, by decide⟩,
    by decide, by decide⟩

/-- C1 amended: for an owner with a truthy identity and a fresh task id,
submit fails (with the conflict rejection) exactly when the owner still has
a task in status pending/processing after the embedded stuck-task sweep --
a stuck pending task is first reclaimed and does not block -- and the
failed call leaves the swept state unchanged; otherwise it appends exactly
one new pending task, and immediately afterwards the owner has exactly one
active task.  (The sweep-less global single-active invariant fails: see the
counterexample.) -/
theorem submit_conflict_after_sweep (st : SysState) (tid url : String)
    (mv uid now : Nat) (huid : uid ≠ 0) (hu : ¬url = "")
    (hv2 : (containsSub url "youtube.com" || containsSub url "youtu.be") = true)
    (hfresh : dbFind st.db tid = none) :
    ((process_video tid url mv (some uid) now st).2 ≠ none ↔
      hasActive (cleanup_stuck_tasks now (some uid) st).db (some uid) = true) ∧
    (hasActive (cleanup_stuck_tasks now (some uid) st).db (some uid) = true →
      (process_video tid url mv (some uid) now st).1 =
        cleanup_stuck_tasks now (some uid) st) ∧
    (hasActive (cleanup_stuck_tasks now (some uid) st).db (some uid) = false →
      (process_video tid url mv (some uid) now st).2 = none ∧
      (process_video tid url mv (some uid) now st).1.db =
        (cleanup_stuck_tasks now (some uid) st).db ++
          [newDbTask tid (some uid) url mv now] ∧
      activeCount (process_video tid url mv (some uid) now st).1.db uid = 1) := by
  have hvne : ¬(!containsSub url "youtube.com" && !containsSub url "youtu.be") = true := by
    rw [← Bool.not_or, hv2]
    simp
  have htr : truthy (some uid) = true := by
    simp [truthy, huid]
  rw [process_video_eq tid url mv (some uid) now st hu hvne]
  simp only [htr, if_true, Bool.true_and]
  by_cases hA : hasActive (cleanup_stuck_tasks now (some uid) st).db (some uid) = true
  · rw [if_pos hA]
    refine ⟨by simp [hA], fun _ => rfl, fun hAF => ?_⟩
    rw [hA] at hAF
    cases hAF
  · rw [if_neg hA]
    rw [Bool.not_eq_true] at hA
    have hfr : dbFind (cleanup_stuck_tasks now (some uid) st).db tid = none := by
      rw [dbFind_cleanup, hfresh]
      rfl
    rw [if_neg (by simp [hfr])]
    refine ⟨by simp [hA], fun hAT => ?_, fun _ => ⟨rfl, rfl, ?_⟩⟩
    · rw [hAT] at hA
      cases hA
    · show activeCount ((cleanup_stuck_tasks now (some uid) st).db ++
        [newDbTask tid (some uid) url mv now]) uid = 1
      rw [activeCount_append, activeCount_eq_zero hA, activeCount_new]

/-- C1 witness: a first submission by user 1 on the empty store succeeds,
appends one pending task and leaves the owner with exactly one active
task. -/
theorem submit_conflict_after_sweep_witness :
    (process_video "W" exUrl 1 (some 1) 5 st0).2 = none ∧
    (process_video "W" exUrl 1 (some 1) 5 st0).1.db =
      (cleanup_stuck_tasks 5 (some 1) st0).db ++ [newDbTask "W" (some 1) exUrl 1 5] ∧
    activeCount (process_video "W" exUrl 1 (some 1) 5 st0).1.db 1 = 1 :=
  (submit_conflict_after_sweep st0 "W" exUrl 1 1 5 (by decide) (by decide)
    (by decide) (by decide)).2.2 (by decide)

/-- C2 witness: a stuck-task sweep run over a store holding the completed
task D leaves its row, absent cache entry and directory untouched. -/
theorem terminal_finality_api_ops_witness :
    dbFind (applyOp (.cleanup 999 none) doneSt).db "D" = some doneTask ∧
    cacheFind (applyOp (.cleanup 999 none) doneSt).cache "D" =
      cacheFind doneSt.cache "D" ∧
    (applyOp (.cleanup 999 none) doneSt).workdirs.contains "D" =
      doneSt.workdirs.contains "D" :=
  terminal_finality_api_ops (.cleanup 999 none) doneSt "D" doneTask
    (by decide) (by decide) (by decide)

theorem bg_finish_none_failed (tid : String) (now : Nat) (st : SysState)
    (t : DbTask) (ht : dbFind st.db tid = some t) :
    dbFind (bg_finish tid none now st).db tid =
      some { t with status := .failed,
                    error := some "Pipeline failed to generate output" } := by
  have hb : bg_finish tid none now st =
      { st with
          db := dbUpdate st.db tid fun t =>
            { t with status := .failed,
                     error := some "Pipeline failed to generate output" },
          cache := cacheUpdate st.cache tid fun e =>
            { e with status := .failed,
                     error := some "Pipeline failed to generate output" } } := by
    unfold bg_finish
    rw [ht]
  rw [hb]
  show dbFind (dbUpdate st.db tid _) tid = _
  rw [dbFind_update_self st.db tid (by intro x; rfl), ht]
  rfl

/-- C6: whenever the required clustering stage is reached -- at least one
video survived the fetch stage and at least one clip was produced, as when
every item survived all earlier stages -- and the stage fails, the run
returns no artifact, and the background finish records status failed with
the error populated; zip_path is never set. -/
theorem cluster_failure_aborts_run (cfg : RunCfg) (st : SysState)
    (tid : String) (t : DbTask) (now : Nat)
    (hcl : cfg.cluster ≠ .clusterOk)
    (hs : survivors cfg ≠ [])
    (hc : totalClips cfg ≠ 0)
    (ht : dbFind st.db tid = some t) :
    pipelineRun cfg = none ∧
    dbFind (bg_finish tid (pipelineRun cfg) now st).db tid =
      some { t with status := .failed,
                    error := some "Pipeline failed to generate output" } := by
  have hrun : pipelineRun cfg = none := by
    unfold pipelineRun
    rw [if_neg (by simpa using hs), if_neg hc, if_pos hcl]
  refine ⟨hrun, ?_⟩
  rw [hrun]
  exact bg_finish_none_failed tid now st t ht

/-- C6 witness: the one-video run whose clustering stage fails after the
single clip survived every earlier stage yields no artifact, and finishing
the running task T records failed with the error. -/
theorem cluster_failure_aborts_run_witness :
    pipelineRun { exCfg with cluster := .noEmbeddings } = none ∧
    dbFind (bg_finish "T" (pipelineRun { exCfg with cluster := .noEmbeddings })
        77 running35St).db "T" =
      some { running35 with status := .failed,
                            error := some "Pipeline failed to generate output" } :=
  cluster_failure_aborts_run { exCfg with cluster := .noEmbeddings }
    running35St "T" running35 77 (by decide) (by decide) (by decide) (by decide)

/-- C7: a run whose batch is empty after the fetch stage, or that yields no
clip from any surviving video, returns no artifact, and the background
finish records status failed with the error message populated; no empty
artifact is produced or recorded. -/
theorem empty_batch_fails (cfg : RunCfg) (st : SysState) (tid : String)
    (t : DbTask) (now : Nat)
    (hempty : survivors cfg = [] ∨ totalClips cfg = 0)
    (ht : dbFind st.db tid = some t) :
    pipelineRun cfg = none ∧
    dbFind (bg_finish tid (pipelineRun cfg) now st).db tid =
      some { t with status := .failed,
                    error := some "Pipeline failed to generate output" } := by
  have hrun : pipelineRun cfg = none := by
    unfold pipelineRun
    rcases hempty with h1 | h2
    · rw [if_pos (by simp [h1])]
    · by_cases hse : (survivors cfg).isEmpty = true
      · rw [if_pos hse]
      · rw [if_neg hse, if_pos h2]
  refine ⟨hrun, ?_⟩
  rw [hrun]
  exact bg_finish_none_failed tid now st t ht

/-- C7 witness: a run whose only candidate video is rejected by the signer
check downloads nothing; the run yields no artifact and task T is recorded
failed with the error populated. -/
theorem empty_batch_fails_witness :
    pipelineRun ⟨false, [.noSigner], .clusterOk, true⟩ = none ∧
    dbFind (bg_finish "T" (pipelineRun ⟨false, [.noSigner], .clusterOk, true⟩)
        78 running35St).db "T" =
      some { running35 with status := .failed,
                            error := some "Pipeline failed to generate output" } :=
  empty_batch_fails ⟨false, [.noSigner], .clusterOk, true⟩ running35St "T"
    running35 78 (by decide) (by decide)

/-- C3 (evaluation of the code at the failing input): in the fully
successful single-video run, the emitted progress sequence contains 35
(the fixed "Cropped signer" update of step 2) immediately followed by 30
(run's banded "[1/1] Transcribing..." update), and delivering the lower
update to the running task T, whose stored progress is 35, stores 30
unclamped in both the cache entry and -- 30 being a multiple of 5 -- the
durable row. -/
theorem progress_decreases_and_is_stored :
    (progressList exCfg).get? 9 = some 35 ∧
    (progressList exCfg).get? 10 = some 30 ∧
    running35.status = .processing ∧
    running35Entry.progress = 35 ∧
    running35.progress = 35 ∧
    (update_task_progress "T" 30 "[1/1] Transcribing..." running35St).2 = false ∧
    (cacheFind (update_task_progress "T" 30 "[1/1] Transcribing..."
        running35St).1.cache "T").map (fun e => e.progress) = some 30 ∧
    (dbFind (update_task_progress "T" 30 "[1/1] Transcribing..."
        running35St).1.db "T").map (fun t => t.progress) = some 30 := by
  refine ⟨by decide, by decide, by decide, by decide, by decide, by decide,
    by decide, by decide⟩

theorem execCancel_take (flagAt : Nat) : ∀ (evs : List PEvent) (i : Nat),
    ∃ k, execCancel flagAt i evs = evs.take k ∧
      (k = evs.length ∨ ∃ p m, evs.get? k = some (.prog p m) ∧ flagAt ≤ i + k) := by
  intro evs
  induction evs with
  | nil => exact fun i => ⟨0, rfl, Or.inl rfl⟩
  | cons hd tl ih =>
    intro i
    cases hd with
    | work w =>
      obtain ⟨k, hk, hdis⟩ := ih (i + 1)
      refine ⟨k + 1, by simp [execCancel, hk], ?_⟩
      rcases hdis with h | ⟨p, m, hp, hle⟩
      · exact Or.inl (by simp [h])
      · exact Or.inr ⟨p, m, by simpa using hp, by omega⟩
    | prog p m =>
      by_cases hle : flagAt ≤ i
      · exact ⟨0, by simp [execCancel, hle], Or.inr ⟨p, m, rfl, by omega⟩⟩
      · obtain ⟨k, hk, hdis⟩ := ih (i + 1)
        refine ⟨k + 1, by simp [execCancel, hle, hk], ?_⟩
        rcases hdis with h | ⟨p2, m2, hp, hle2⟩
        · exact Or.inl (by simp [h])
        · exact Or.inr ⟨p2, m2, by simpa using hp, by omega⟩

theorem execCancel_complete (flagAt : Nat) : ∀ (evs : List PEvent) (i : Nat),
    (∀ k p m, evs.get? k = some (.prog p m) → i + k < flagAt) →
    execCancel flagAt i evs = evs := by
  intro evs
  induction evs with
  | nil => exact fun i _ => rfl
  | cons hd tl ih =>
    intro i h
    cases hd with
    | work w =>
      show PEvent.work w :: execCancel flagAt (i + 1) tl = PEvent.work w :: tl
      refine congrArg _ (ih (i + 1) ?_)
      intro k p m hk
      have := h (k + 1) p m (by simpa using hk)
      omega
    | prog p m =>
      have hi : i < flagAt := by
        have := h 0 p m rfl
        omega
      show (if flagAt ≤ i then [] else PEvent.prog p m :: execCancel flagAt (i + 1) tl) =
        PEvent.prog p m :: tl
      rw [if_neg (by omega)]
      refine congrArg _ (ih (i + 1) ?_)
      intro k p2 m2 hk
      have := h (k + 1) p2 m2 (by simpa using hk)
      omega

/-- C10: the cancellation flag is consulted only inside the progress
callback: (a) one progress delivery raises the cancellation signal exactly
when the cache entry exists with the flag set, and otherwise stores the
update; (b) a run whose flag becomes set from absolute event index flagAt
executes a prefix of its event sequence, and the first event not executed,
when there is one, is a progress emission at index at least flagAt -- every
external-tool invocation before that point still runs; (c) a run with no
progress emission at index flagAt or later runs to completion despite the
flag, so a stage invocation that emits no progress update never terminates
because of cancellation. -/
theorem cancellation_checked_only_at_progress :
    (∀ tid p m st, (update_task_progress tid p m st).2 = true ↔
      ∃ e, cacheFind st.cache tid = some e ∧ e.cancelled = true) ∧
    (∀ flagAt evs, ∃ k, execCancel flagAt 0 evs = List.take k evs ∧
      (k = evs.length ∨ ∃ p m, evs.get? k = some (.prog p m) ∧ flagAt ≤ k)) ∧
    (∀ flagAt evs, (∀ k p m, evs.get? k = some (.prog p m) → k < flagAt) →
      execCancel flagAt 0 evs = evs) := by
  refine ⟨?_, ?_, ?_⟩
  · intro tid p m st
    unfold update_task_progress
    cases hc : cacheFind st.cache tid with
    | none => simp [hc]
    | some e =>
      by_cases he : e.cancelled = true
      · simp [hc, he]
      · simp [hc, he]
  · intro flagAt evs
    simpa using execCancel_take flagAt evs 0
  · intro flagAt evs h
    exact execCancel_complete flagAt evs 0 (by simpa using h)

/-- C10 witness: a progress delivery for the flagged task T raises the
cancellation signal, and the full single-video run -- 42 events long --
executes to completion when the flag is only set from index 1000 on, past
its last progress emission. -/
theorem cancellation_checked_only_at_progress_witness :
    (update_task_progress "T" 10 "m" flaggedSt).2 = true ∧
    execCancel 1000 0 (runTrace exCfg) = runTrace exCfg := by
  constructor
  · exact (cancellation_checked_only_at_progress.1 "T" 10 "m" flaggedSt).mpr
      ⟨{ newCacheEntry (some 1) exUrl 1 0 with cancelled := true }, by decide, by decide⟩
  · refine cancellation_checked_only_at_progress.2.2 1000 (runTrace exCfg) ?_
    intro k p m hk
    by_cases hbig : k < 1000
    · exact hbig
    · exfalso
      have hlen : (runTrace exCfg).length = 42 := by decide
      rw [List.get?_eq_none.mpr (by omega)] at hk
      cases hk

end ViSL
